import Mathlib

/-!
Verification of the rose-glass physician pattern-translation library.

The development shallowly embeds the scoring, state-classification and
narrative-generation code of the repository.  Text is modelled as a list of
characters, Python floats as exact rationals, Python dictionaries as
association lists, and the in-place mutation of `GriefWisdomTransformer` as
explicit state passing.  `datetime` values are modelled as opaque natural
number ticks supplied by the caller.
-/

/-! ## Text primitives: lowercasing, word counting, substring occurrence -/

/-- Character data of a string literal. -/
def chars (s : String) : List Char := s.data

/-- Lowercase a text, character by character (models Python `str.lower`). -/
def toLowerText (t : List Char) : List Char := t.map Char.toLower

/-- `leadsWith pat t` is true when `pat` is an initial segment of `t`. -/
def leadsWith : List Char → List Char → Bool
  | [], _ => true
  | _ :: _, [] => false
  | p :: ps, c :: cs => p == c && leadsWith ps cs

/-- `hasSub pat t` is true when `pat` occurs contiguously somewhere inside
`t` (models Python `pat in t`). -/
def hasSub (pat : List Char) : List Char → Bool
  | [] => pat.isEmpty
  | c :: cs => leadsWith pat (c :: cs) || hasSub pat cs

/-- Number of start positions at which `pat` occurs inside `t`. -/
def occCount (pat : List Char) : List Char → Nat
  | [] => if pat.isEmpty then 1 else 0
  | c :: cs => (if leadsWith pat (c :: cs) then 1 else 0) + occCount pat cs

/-- `sum(1 for marker in markers if marker in textLower)`: each marker of the
list contributes one when it occurs in the (already lowercased) text. -/
def markerCount (markers : List (List Char)) (textLower : List Char) : Nat :=
  markers.countP (fun m => hasSub m textLower)

/-- Helper for `wordCount`: the flag records whether we are inside a word. -/
def wcAux : List Char → Bool → Nat
  | [], _ => 0
  | c :: cs, inWord =>
    if c.isWhitespace then wcAux cs false
    else (if inWord then 0 else 1) + wcAux cs true

/-- `len(text.split())`: the number of maximal whitespace-free runs. -/
def wordCount (t : List Char) : Nat := wcAux t false

/-! ## Marker vocabularies of `PhysicianPatternExtractor` -/

def CLINICAL_DETACHMENT_MARKERS : List (List Char) :=
  ["the patient", "case", "presented", "expired", "passed",
   "prognosis", "outcome", "treatment", "protocol"].map chars

def HUMAN_CONNECTION_MARKERS : List (List Char) :=
  ["i", "we", "felt", "feel", "hard", "difficult", "tears",
   "family", "mother", "father", "child", "loved", "miss"].map chars

def GRIEF_MARKERS : List (List Char) :=
  ["lost", "death", "died", "passed", "gone", "miss",
   "another one", "how many more", "can\x27t take", "breaking"].map chars

def WISDOM_MARKERS : List (List Char) :=
  ["learned", "understand", "realize", "meaning", "purpose",
   "grateful", "honored", "privilege", "taught me", "gift"].map chars

def BURNOUT_PRECURSORS : List (List Char) :=
  ["exhausted", "can\x27t", "don\x27t care", "what\x27s the point",
   "numb", "empty", "mechanical", "going through motions"].map chars

def COMPASSION_FATIGUE_MARKERS : List (List Char) :=
  ["nightmares", "intrusive", "can\x27t stop thinking",
   "haunted", "triggered", "reminded", "flashback"].map chars

def POST_TRAUMATIC_GROWTH_MARKERS : List (List Char) :=
  ["stronger", "perspective", "appreciate", "relationship",
   "meaning", "spiritual", "growth", "transformed"].map chars

def COLLECTIVE_MARKERS : List (List Char) :=
  ["we", "team", "colleagues", "nurses", "staff"].map chars

def ISOLATION_MARKERS : List (List Char) :=
  ["alone", "nobody", "by myself", "no one"].map chars

def TEMPORAL_MARKERS : List (List Char) :=
  ["years", "months", "always", "never", "every time",
   "another", "again", "keeps happening"].map chars

/-! ## GCT variables and extraction -/

/-- The extended GCT variable record of `physician_rose_glass.py`.
The source field `wisdom_compression_ratio` is named `wisdom_compression`
here. -/
structure PhysicianGCTVariables where
  psi : ℚ := 0
  rho : ℚ := 0
  q : ℚ := 0
  f : ℚ := 0
  tau : ℚ := 0
  lambda_coef : ℚ := 0
  wisdom_compression : ℚ := 0
  compassion_reserve : ℚ := 0
  cumulative_grief_load : ℚ := 0
deriving Repr, DecidableEq

/-- Word count of the lowercased input. -/
def wcOf (t : List Char) : ℕ := wordCount (toLowerText t)

/-- Count of markers occurring in the lowercased input. -/
def countIn (markers : List (List Char)) (t : List Char) : ℕ :=
  markerCount markers (toLowerText t)

/-- A word-count-normalized marker ratio `count / (word_count * k + 1)`. -/
def ratioOf (markers : List (List Char)) (k : ℚ) (t : List Char) : ℚ :=
  (countIn markers t : ℚ) / ((wcOf t : ℚ) * k + 1)

/-- The normalized, clamped score shape named by the specification:
`min(count / (word_count * k + 1), 1.0)`. -/
def normScore (k : ℚ) (count wc : ℕ) : ℚ :=
  min ((count : ℚ) / ((wc : ℚ) * k + 1)) 1

/-- Body of `PhysicianPatternExtractor.extract` for non-empty word count. -/
def extractCore (text : List Char) : PhysicianGCTVariables :=
  let clinicalR : ℚ := ratioOf CLINICAL_DETACHMENT_MARKERS (1/10) text
  let humanR : ℚ := ratioOf HUMAN_CONNECTION_MARKERS (1/10) text
  let psi := min ((clinicalR + humanR) / 2 * 2) 1
  let rho := normScore (1/20)
    (countIn WISDOM_MARKERS text + countIn POST_TRAUMATIC_GROWTH_MARKERS text)
    (wcOf text)
  let emotionBase : ℚ := ratioOf GRIEF_MARKERS (1/20) text
  let hasSuppression :=
    hasSub (chars "held it together") (toLowerText text) ||
    hasSub (chars "stayed strong") (toLowerText text)
  let emotionIntensity := if hasSuppression then emotionBase * (3/2) else emotionBase
  let q := min emotionIntensity 1
  let fBase := min (ratioOf COLLECTIVE_MARKERS (3/100) text) 1
  let f := if countIn ISOLATION_MARKERS text > 0 then fBase * (1/2) else fBase
  let tau := min ((countIn TEMPORAL_MARKERS text : ℚ) / 3) 1
  let lambda_coef := abs (clinicalR - humanR)
  let rawGrief := countIn GRIEF_MARKERS text + countIn COMPASSION_FATIGUE_MARKERS text
  let processedWisdom :=
    countIn WISDOM_MARKERS text + countIn POST_TRAUMATIC_GROWTH_MARKERS text
  let wisdomCompression :=
    if rawGrief > 0 then min ((processedWisdom : ℚ) / (rawGrief : ℚ)) 1 else 1/2
  let cumulativeGriefLoad := normScore (1/20)
    (countIn GRIEF_MARKERS text + countIn BURNOUT_PRECURSORS text +
      countIn COMPASSION_FATIGUE_MARKERS text)
    (wcOf text)
  { psi := psi, rho := rho, q := q, f := f, tau := tau, lambda_coef := lambda_coef,
    wisdom_compression := wisdomCompression, compassion_reserve := 0,
    cumulative_grief_load := cumulativeGriefLoad }

/-- `PhysicianPatternExtractor.extract`: empty input yields the zero record. -/
def extract (text : List Char) : PhysicianGCTVariables :=
  if wcOf text = 0 then {} else extractCore text

/-! ## Biological optimizer -/

/-- `BiologicalOptimizer.optimize_q` with half-saturation constant `Km` and
inhibition constant `Ki`. -/
def optimize_q (Km Ki q_raw : ℚ) : ℚ :=
  if q_raw ≤ 0 then 0
  else
    let denominator := Km + q_raw + q_raw ^ 2 / Ki
    if denominator = 0 then 0
    else min (q_raw / denominator) (19/20)

/-- The optimizer with its default constants `Km = 0.25`, `Ki = 1.5`. -/
def optimizeQDefault (q_raw : ℚ) : ℚ := optimize_q (1/4) (3/2) q_raw

/-- `BiologicalOptimizer.calculate_compassion_reserve`. -/
def calculate_compassion_reserve (q_current cumulative_load : ℚ)
    (days_since_rest : ℕ) : ℚ :=
  let base_reserve := 1 - optimizeQDefault q_current
  let load_depletion := min (cumulative_load * (3/20)) (1/2)
  let fatigue_factor := min ((days_since_rest : ℚ) * (1/50)) (3/10)
  max (base_reserve - load_depletion - fatigue_factor) (1/20)

/-! ## Compassion state assessment -/

inductive CompassionState where
  | FULL_PRESENCE
  | PROTECTIVE_DISTANCE
  | COMPASSION_FATIGUE
  | BURNOUT_PRECURSOR
  | CRISIS
deriving Repr, DecidableEq

/-- `PhysicianRoseGlass._assess_compassion_state`. -/
def assess_compassion_state (v : PhysicianGCTVariables) : CompassionState :=
  if v.cumulative_grief_load > 7/10 ∧ v.compassion_reserve < 1/5 then
    CompassionState.CRISIS
  else if v.q > 3/5 ∧ v.wisdom_compression < 3/10 then
    CompassionState.COMPASSION_FATIGUE
  else if v.cumulative_grief_load > 1/2 ∧ v.rho < 3/10 then
    CompassionState.BURNOUT_PRECURSOR
  else if v.psi > 1/2 ∧ v.q < 1/2 ∧ v.compassion_reserve > 2/5 then
    CompassionState.PROTECTIVE_DISTANCE
  else
    CompassionState.FULL_PRESENCE

/-! ## Narrative generation

Python interpolates scores into the summary templates with `:.2f` and `:.0%`
format specifiers.  The two rendering helpers below model that fixed-point
decimal formatting (rounding half away from zero; the inputs used in the
development are not ties, where CPython rounds half to even). -/

/-- Render `x` in the style of Python `f"{x:.2f}"`. -/
def fmtTwoDec (x : ℚ) : String :=
  let n : ℤ := ⌊x * 100 + 1/2⌋
  let a := n.natAbs
  (if n < 0 then "-" else "") ++ toString (a / 100) ++ "." ++
    (if a % 100 < 10 then "0" else "") ++ toString (a % 100)

/-- Render `x` in the style of Python `f"{x:.0%}"`. -/
def fmtPct (x : ℚ) : String :=
  toString (⌊x * 100 + 1/2⌋ : ℤ) ++ "%"

/-- `PhysicianRoseGlass._generate_pattern_summary`: the template is chosen by
the state, but three of the five templates interpolate fields of `v`. -/
def generate_pattern_summary (v : PhysicianGCTVariables)
    (state : CompassionState) : String :=
  match state with
  | CompassionState.FULL_PRESENCE =>
      "Patterns suggest integration of clinical and human dimensions (Ψ=" ++
      fmtTwoDec v.psi ++ "). Emotional engagement is present and sustainable (q=" ++
      fmtTwoDec v.q ++ "). Compassion reserves appear adequate (" ++
      fmtPct v.compassion_reserve ++ ")."
  | CompassionState.PROTECTIVE_DISTANCE =>
      "Patterns indicate healthy professional boundaries. Clinical frame may " ++
      "be providing necessary protection. This \x27becoming a little numb to " ++
      "death\x27 can be adaptive when sustained compassion is also present."
  | CompassionState.COMPASSION_FATIGUE =>
      "Patterns suggest traumatic stress exposure may be accumulating faster " ++
      "than processing (compression ratio=" ++ fmtTwoDec v.wisdom_compression ++
      "). High emotional activation (" ++ fmtTwoDec v.q ++
      ") with limited wisdom integration (" ++ fmtTwoDec v.rho ++
      ") may indicate need for supported meaning-making."
  | CompassionState.BURNOUT_PRECURSOR =>
      "Energy depletion patterns detected. Cumulative grief load (" ++
      fmtTwoDec v.cumulative_grief_load ++ ") exceeds current wisdom " ++
      "compression capacity. Support structures may help before burnout cascade."
  | CompassionState.CRISIS =>
      "Pattern intensity suggests immediate support warranted. Compassion " ++
      "reserves critically low (" ++ fmtPct v.compassion_reserve ++
      "). This is not a failure—it\x27s a signal that the system needs care."

/-- `PhysicianRoseGlass._generate_support_suggestions`: a state-keyed base
list, then two variable-dependent suggestions appended. -/
def generate_support_suggestions (v : PhysicianGCTVariables)
    (state : CompassionState) : List String :=
  let base : List String :=
    if state = CompassionState.CRISIS then
      ["Consider reaching out to a trusted colleague today",
       "Professional support available—this is not weakness but wisdom",
       "Rest is not abandonment of patients—it\x27s preservation of capacity to serve"]
    else if state = CompassionState.COMPASSION_FATIGUE then
      ["Debrief support after particularly difficult cases may help",
       "The \x27heaviness\x27 you feel is shared by others who do this work",
       "Consider whether current load matches recovery capacity"]
    else if state = CompassionState.BURNOUT_PRECURSOR then
      ["Early intervention prevents cascade—now is the time",
       "What practices restore rather than merely distract?",
       "Permission to acknowledge the cost of this work"]
    else []
  let withIso := base ++
    (if v.f < 3/10 then
      ["Connection with others who understand may help—isolation compounds grief"]
     else [])
  withIso ++
    (if v.tau > 3/5 then
      ["Long temporal pattern—cumulative impact acknowledged. The weight of years deserves witness."]
     else [])

/-! ## Compassion preservation lens (`compassion_preservation_lens.py`) -/

inductive CompassionMode where
  | FULL_ENGAGEMENT
  | SUSTAINABLE_RHYTHM
  | PROTECTIVE_DISTANCE
  | COMPASSION_FATIGUE
  | BURNOUT_CASCADE
deriving Repr, DecidableEq

def lens_fatigue_markers : List (List Char) :=
  ["can\x27t stop thinking", "nightmares", "intrusive", "haunted",
   "triggered", "flashback", "images", "won\x27t leave", "keeps coming back"].map chars

def lens_burnout_markers : List (List Char) :=
  ["exhausted", "empty", "going through motions", "don\x27t care",
   "what\x27s the point", "mechanical", "cynical", "jaded"].map chars

def lens_presence_markers : List (List Char) :=
  ["present", "connected", "honored", "privilege", "meaningful",
   "rewarding", "grateful", "touched"].map chars

def lens_distance_markers : List (List Char) :=
  ["professional", "boundary", "separate", "clinical",
   "detached", "objective", "distance"].map chars

def lens_recovery_markers : List (List Char) :=
  ["rest", "restored", "recharged", "supported", "processed",
   "talked", "shared", "cried", "grieved"].map chars

def over_involvement_markers : List (List Char) :=
  ["too much", "can\x27t let go", "my patient", "felt like mine"].map chars

/-- `CompassionPreservationLens._calculate_engagement` (the `word_count`
parameter of the source is unused there). -/
def calculate_engagement (textLower : List Char) : ℚ :=
  let presence_count := markerCount lens_presence_markers textLower
  let burnout_count := markerCount lens_burnout_markers textLower
  let presence_boost := min ((presence_count : ℚ) * (3/20)) (2/5)
  let burnout_penalty := min ((burnout_count : ℚ) * (3/20)) (2/5)
  max 0 (min 1 (1/2 + presence_boost - burnout_penalty))

/-- `CompassionPreservationLens._calculate_boundary_health`. -/
def calculate_boundary_health (textLower : List Char) : ℚ :=
  let distance_count := markerCount lens_distance_markers textLower
  let over_count := markerCount over_involvement_markers textLower
  if distance_count ≥ 1 ∧ over_count = 0 then 7/10
  else if over_count > 0 then 3/10
  else if distance_count ≥ 3 then 2/5
  else 1/2

/-- `CompassionPreservationLens._calculate_recovery`. -/
def calculate_recovery (textLower : List Char) : ℚ :=
  let recovery_count := markerCount lens_recovery_markers textLower
  min ((recovery_count : ℚ) * (1/5)) (4/5) + 1/10

/-- `CompassionPreservationLens._calculate_intrusion`. -/
def calculate_intrusion (textLower : List Char) : ℚ :=
  let fatigue_count := markerCount lens_fatigue_markers textLower
  min ((fatigue_count : ℚ) * (1/5)) 1

/-- `CompassionPreservationLens._determine_mode`. -/
def determine_mode (engagement boundary recovery intrusion : ℚ) :
    CompassionMode × ℚ :=
  if intrusion > 1/2 then (CompassionMode.COMPASSION_FATIGUE, min intrusion (4/5))
  else if engagement < 3/10 ∧ recovery < 3/10 then (CompassionMode.BURNOUT_CASCADE, 7/10)
  else if boundary ≥ 3/5 ∧ engagement ≥ 3/10 ∧ engagement ≤ 7/10 then
    (CompassionMode.PROTECTIVE_DISTANCE, 3/5)
  else if engagement > 7/10 ∧ recovery > 2/5 then (CompassionMode.FULL_ENGAGEMENT, 7/10)
  else (CompassionMode.SUSTAINABLE_RHYTHM, 1/2)

/-- The mode computed by the lens pipeline `assess` on a lowercased text. -/
def lensMode (textLower : List Char) : CompassionMode :=
  (determine_mode (calculate_engagement textLower)
    (calculate_boundary_health textLower)
    (calculate_recovery textLower)
    (calculate_intrusion textLower)).1

/-- `CompassionPreservationLens._generate_recommendations`: a pure dictionary
lookup from the mode. -/
def generate_recommendations (mode : CompassionMode) : List String :=
  match mode with
  | CompassionMode.FULL_ENGAGEMENT =>
      ["Maintain practices that restore compassion reserves",
       "Monitor for signs of over-extension",
       "Ensure boundaries remain healthy alongside engagement"]
  | CompassionMode.SUSTAINABLE_RHYTHM =>
      ["Current practices appear effective—continue",
       "Note what helps maintain this balance",
       "Share what works with colleagues who may be struggling"]
  | CompassionMode.PROTECTIVE_DISTANCE =>
      ["This distance may be serving a protective function",
       "Check: Is genuine connection still accessible when needed?",
       "Ensure distance is chosen, not forced by depletion"]
  | CompassionMode.COMPASSION_FATIGUE =>
      ["Secondary traumatic stress responds to specific interventions",
       "Consider speaking with someone trained in trauma support",
       "Processing rituals after difficult cases may help",
       "This is not weakness—it\x27s the cost of caring work"]
  | CompassionMode.BURNOUT_CASCADE =>
      ["Restoration needed before continued depletion",
       "Professional support specifically for physician burnout exists",
       "Time off is not abandonment—it\x27s preservation of capacity to serve"]

/-! ## Accumulation trend (`PhysicianRoseGlass.get_accumulation_trend`) -/

structure AccumulationTrend where
  grief_direction : String
  wisdom_direction : String
  reserve_direction : String
  sample_size : ℕ
  note : String
deriving Repr, DecidableEq

/-- `PhysicianRoseGlass.get_accumulation_trend`, with the tracked history
passed explicitly. -/
def get_accumulation_trend (history : List PhysicianGCTVariables) :
    Option AccumulationTrend :=
  if history.length < 3 then none
  else
    let recent := history.drop (history.length - 5)
    let griefTrend := recent.map (fun v => v.cumulative_grief_load)
    let wisdomTrend := recent.map (fun v => v.rho)
    let reserveTrend := recent.map (fun v => v.compassion_reserve)
    some
      { grief_direction :=
          if griefTrend.getLastD 0 > griefTrend.headD (0 : ℚ) then "increasing"
          else "stable_or_decreasing"
        wisdom_direction :=
          if wisdomTrend.getLastD 0 > wisdomTrend.headD (0 : ℚ) then "increasing"
          else "stable_or_decreasing"
        reserve_direction :=
          if reserveTrend.getLastD 0 > reserveTrend.headD (0 : ℚ) then "increasing"
          else "decreasing"
        sample_size := recent.length
        note := "Trends are patterns, not predictions. Use as reflection prompt, not diagnosis." }

/-! ## Grief accumulation lens: raw grief score -/

def raw_grief_markers : List (List Char) :=
  ["lost", "died", "death", "passed", "gone",
   "another one", "how many more", "can\x27t take this"].map chars

/-- `GriefAccumulationLens._calculate_raw_grief` (applied to the lowercased
text and its word count, as in `view`). -/
def calculate_raw_grief (textLower : List Char) (word_count : ℕ) : ℚ :=
  let grief_count := markerCount raw_grief_markers textLower
  min ((grief_count : ℚ) / ((word_count : ℚ) * (1/20) + 1)) 1

/-! ## Helper lemmas on scores -/

theorem ratioOf_den_pos (k : ℚ) (hk : 0 ≤ k) (t : List Char) :
    0 < (wcOf t : ℚ) * k + 1 := by positivity

theorem ratioOf_nonneg (m : List (List Char)) (k : ℚ) (hk : 0 ≤ k)
    (t : List Char) : 0 ≤ ratioOf m k t :=
  div_nonneg (Nat.cast_nonneg _) (ratioOf_den_pos k hk t).le

theorem normScore_nonneg (k : ℚ) (hk : 0 ≤ k) (c w : ℕ) :
    0 ≤ normScore k c w := by
  have hd : (0:ℚ) < (w : ℚ) * k + 1 := by positivity
  exact le_min (div_nonneg (Nat.cast_nonneg _) hd.le) zero_le_one

theorem normScore_le_one (k : ℚ) (c w : ℕ) : normScore k c w ≤ 1 :=
  min_le_right _ _

theorem extract_eq_core (t : List Char) (h : wcOf t ≠ 0) :
    extract t = extractCore t := by
  unfold extract
  rw [if_neg h]

theorem hasSub_eq_true_iff (p t : List Char) :
    hasSub p t = true ↔ 0 < occCount p t := by
  induction t with
  | nil =>
    by_cases he : p.isEmpty <;> simp [hasSub, occCount, he]
  | cons c cs ih =>
    by_cases hl : leadsWith p (c :: cs) = true <;>
      simp [hasSub, occCount, hl, ih]

/-! ## Claim theorems C1 - C5 -/

/-- C2 (counterexample): on the single-word input "protocolcase" both the
markers "protocol" and "case" occur, so `lambda_coef = |2/(1.1) - 0| = 20/11`,
strictly greater than 1: not every field of the extracted record lies in
[0, 1]. -/
theorem C2_counterexample_lambda_exceeds_one :
    1 < (extract (chars "protocolcase")).lambda_coef :=
  of_decide_eq_true (by with_unfolding_all rfl)

/-- C2 (amended): every field of the record returned by
`PhysicianPatternExtractor.extract` lies in [0, 1], except `lambda_coef`,
which is only guaranteed to be nonnegative (it can exceed 1). -/
theorem C2_extract_fields_bounded (t : List Char) :
    (0 ≤ (extract t).psi ∧ (extract t).psi ≤ 1) ∧
    (0 ≤ (extract t).rho ∧ (extract t).rho ≤ 1) ∧
    (0 ≤ (extract t).q ∧ (extract t).q ≤ 1) ∧
    (0 ≤ (extract t).f ∧ (extract t).f ≤ 1) ∧
    (0 ≤ (extract t).tau ∧ (extract t).tau ≤ 1) ∧
    (0 ≤ (extract t).wisdom_compression ∧ (extract t).wisdom_compression ≤ 1) ∧
    (0 ≤ (extract t).compassion_reserve ∧ (extract t).compassion_reserve ≤ 1) ∧
    (0 ≤ (extract t).cumulative_grief_load ∧
      (extract t).cumulative_grief_load ≤ 1) ∧
    0 ≤ (extract t).lambda_coef := by
  by_cases h : wcOf t = 0
  · rw [extract, if_pos h]
    exact of_decide_eq_true (by with_unfolding_all rfl)
  · rw [extract_eq_core t h]
    have hC : 0 ≤ ratioOf CLINICAL_DETACHMENT_MARKERS (1/10) t :=
      ratioOf_nonneg _ _ (by norm_num) t
    have hH : 0 ≤ ratioOf HUMAN_CONNECTION_MARKERS (1/10) t :=
      ratioOf_nonneg _ _ (by norm_num) t
    have hG : 0 ≤ ratioOf GRIEF_MARKERS (1/20) t :=
      ratioOf_nonneg _ _ (by norm_num) t
    have hCol : 0 ≤ ratioOf COLLECTIVE_MARKERS (3/100) t :=
      ratioOf_nonneg _ _ (by norm_num) t
    refine ⟨⟨?_, ?_⟩, ⟨?_, ?_⟩, ⟨?_, ?_⟩, ⟨?_, ?_⟩, ⟨?_, ?_⟩, ⟨?_, ?_⟩,
      ⟨?_, ?_⟩, ⟨?_, ?_⟩, ?_⟩
    · show 0 ≤ min ((ratioOf CLINICAL_DETACHMENT_MARKERS (1/10) t +
        ratioOf HUMAN_CONNECTION_MARKERS (1/10) t) / 2 * 2) 1
      exact le_min (by linarith) zero_le_one
    · exact min_le_right _ _
    · exact normScore_nonneg _ (by norm_num) _ _
    · exact normScore_le_one _ _ _
    · show 0 ≤ min (if hasSub (chars "held it together") (toLowerText t) ||
        hasSub (chars "stayed strong") (toLowerText t) then
          ratioOf GRIEF_MARKERS (1/20) t * (3/2)
        else ratioOf GRIEF_MARKERS (1/20) t) 1
      refine le_min ?_ zero_le_one
      split <;> linarith
    · exact min_le_right _ _
    · show 0 ≤ if countIn ISOLATION_MARKERS t > 0 then
        min (ratioOf COLLECTIVE_MARKERS (3/100) t) 1 * (1/2)
        else min (ratioOf COLLECTIVE_MARKERS (3/100) t) 1
      have h0 : 0 ≤ min (ratioOf COLLECTIVE_MARKERS (3/100) t) 1 :=
        le_min hCol zero_le_one
      split <;> linarith
    · show (if countIn ISOLATION_MARKERS t > 0 then
        min (ratioOf COLLECTIVE_MARKERS (3/100) t) 1 * (1/2)
        else min (ratioOf COLLECTIVE_MARKERS (3/100) t) 1) ≤ 1
      have h1 : min (ratioOf COLLECTIVE_MARKERS (3/100) t) 1 ≤ 1 :=
        min_le_right _ _
      have h0 : 0 ≤ min (ratioOf COLLECTIVE_MARKERS (3/100) t) 1 :=
        le_min hCol zero_le_one
      split <;> linarith
    · show 0 ≤ min ((countIn TEMPORAL_MARKERS t : ℚ) / 3) 1
      exact le_min (by positivity) zero_le_one
    · exact min_le_right _ _
    · show 0 ≤ if countIn GRIEF_MARKERS t +
          countIn COMPASSION_FATIGUE_MARKERS t > 0 then
        min (((countIn WISDOM_MARKERS t +
          countIn POST_TRAUMATIC_GROWTH_MARKERS t : ℕ) : ℚ) /
          ((countIn GRIEF_MARKERS t +
            countIn COMPASSION_FATIGUE_MARKERS t : ℕ) : ℚ)) 1
        else 1/2
      split
      · exact le_min (by positivity) zero_le_one
      · norm_num
    · show (if countIn GRIEF_MARKERS t +
          countIn COMPASSION_FATIGUE_MARKERS t > 0 then
        min (((countIn WISDOM_MARKERS t +
          countIn POST_TRAUMATIC_GROWTH_MARKERS t : ℕ) : ℚ) /
          ((countIn GRIEF_MARKERS t +
            countIn COMPASSION_FATIGUE_MARKERS t : ℕ) : ℚ)) 1
        else 1/2) ≤ 1
      split
      · exact min_le_right _ _
      · norm_num
    · exact le_refl (0 : ℚ)
    · exact zero_le_one
    · exact normScore_nonneg _ (by norm_num) _ _
    · exact normScore_le_one _ _ _
    · exact abs_nonneg _

/-- C1 (counterexample): the temporal-depth score `tau` is not of the shape
`min(count / (word_count * k + 1), 1)` for any constant `k`: the inputs
"years" (1 word) and "years a a a a a a a a a" (10 words) both contain exactly
one temporal marker and both score `tau = 1/3`, which forces `k = 2` from the
first input and `k = 1/5` from the second. -/
theorem C1_counterexample_tau_not_normScore :
    ¬ ∃ k : ℚ,
      (extract (chars "years")).tau =
        normScore k (countIn TEMPORAL_MARKERS (chars "years"))
          (wcOf (chars "years")) ∧
      (extract (chars "years a a a a a a a a a")).tau =
        normScore k (countIn TEMPORAL_MARKERS (chars "years a a a a a a a a a"))
          (wcOf (chars "years a a a a a a a a a")) := by
  rintro ⟨k, h1, h2⟩
  have e1 : (extract (chars "years")).tau = 1/3 := by with_unfolding_all rfl
  have e2 : (extract (chars "years a a a a a a a a a")).tau = 1/3 := by
    with_unfolding_all rfl
  have c1 : countIn TEMPORAL_MARKERS (chars "years") = 1 := by
    with_unfolding_all rfl
  have w1 : wcOf (chars "years") = 1 := by with_unfolding_all rfl
  have c2 : countIn TEMPORAL_MARKERS (chars "years a a a a a a a a a") = 1 := by
    with_unfolding_all rfl
  have w2 : wcOf (chars "years a a a a a a a a a") = 10 := by
    with_unfolding_all rfl
  rw [e1, c1, w1] at h1
  rw [e2, c2, w2] at h2
  unfold normScore at h1 h2
  push_cast at h1 h2
  rcases min_cases ((1 : ℚ) / ((1 : ℚ) * k + 1)) 1 with ⟨hm, _⟩ | ⟨hm, _⟩
  · rw [hm] at h1
    have hne : (1 : ℚ) * k + 1 ≠ 0 := by
      intro h0
      rw [h0, div_zero] at h1
      norm_num at h1
    rw [one_mul] at h1 hne
    have hk3 : k + 1 = 3 := by
      field_simp at h1
      linarith
    have hk : k = 2 := by linarith
    rw [hk] at h2
    norm_num [min_def] at h2
  · rw [hm] at h1
    norm_num at h1

/-- C1 (amended): the scores that normalize a marker count by the word count
do follow the specification shape `min(count / (word_count * k + 1), 1)` —
`rho` and `cumulative_grief_load` with `k = 0.05`, and the grief lens's raw
grief score with `k = 0.05` — but `tau` divides its count by the constant 3
independently of the word count, the lens engagement score is a clamped
base-plus-increment expression, and the lens boundary-health score is a
threshold decision tree over four constants. -/
theorem C1_amended_score_shapes (t : List Char) (h : wcOf t ≠ 0) :
    (extract t).rho = normScore (1/20)
      (countIn WISDOM_MARKERS t + countIn POST_TRAUMATIC_GROWTH_MARKERS t)
      (wcOf t) ∧
    (extract t).cumulative_grief_load = normScore (1/20)
      (countIn GRIEF_MARKERS t + countIn BURNOUT_PRECURSORS t +
        countIn COMPASSION_FATIGUE_MARKERS t) (wcOf t) ∧
    calculate_raw_grief (toLowerText t) (wcOf t) = normScore (1/20)
      (markerCount raw_grief_markers (toLowerText t)) (wcOf t) ∧
    (extract t).tau = min ((countIn TEMPORAL_MARKERS t : ℚ) / 3) 1 ∧
    calculate_engagement (toLowerText t) =
      max 0 (min 1 (1/2 +
        min ((markerCount lens_presence_markers (toLowerText t) : ℚ) * (3/20)) (2/5) -
        min ((markerCount lens_burnout_markers (toLowerText t) : ℚ) * (3/20)) (2/5))) ∧
    (calculate_boundary_health (toLowerText t) = 7/10 ∨
     calculate_boundary_health (toLowerText t) = 3/10 ∨
     calculate_boundary_health (toLowerText t) = 2/5 ∨
     calculate_boundary_health (toLowerText t) = 1/2) := by
  rw [extract_eq_core t h]
  refine ⟨rfl, rfl, rfl, rfl, rfl, ?_⟩
  unfold calculate_boundary_health
  dsimp only
  split_ifs <;> simp

/-- Witness for `C1_amended_score_shapes` at the one-word input "years". -/
theorem C1_amended_score_shapes_witness :
    wcOf (chars "years") ≠ 0 ∧
    (extract (chars "years")).tau =
      min ((countIn TEMPORAL_MARKERS (chars "years") : ℚ) / 3) 1 :=
  ⟨of_decide_eq_true (by with_unfolding_all rfl),
   (C1_amended_score_shapes (chars "years")
     (of_decide_eq_true (by with_unfolding_all rfl))).2.2.2.1⟩

/-- C3: `optimize_q` with the default constants returns 0 on nonpositive
input, otherwise `min(q / (Km + q + q²/Ki), 0.95)` (the internal
zero-denominator guard is unreachable for positive input), and its result
always lies in [0, 0.95]. -/
theorem C3_optimize_q_default (q : ℚ) :
    (q ≤ 0 → optimizeQDefault q = 0) ∧
    (0 < q → optimizeQDefault q = min (q / (1/4 + q + q ^ 2 / (3/2))) (19/20)) ∧
    0 ≤ optimizeQDefault q ∧ optimizeQDefault q ≤ 19/20 := by
  refine ⟨?_, ?_, ?_, ?_⟩
  · intro h
    simp [optimizeQDefault, optimize_q, h]
  · intro h
    have h' : ¬ q ≤ 0 := not_le.2 h
    have hden : (1/4 : ℚ) + q + q ^ 2 / (3/2) ≠ 0 := by positivity
    unfold optimizeQDefault optimize_q
    rw [if_neg h']
    dsimp only
    rw [if_neg hden]
  · unfold optimizeQDefault optimize_q
    dsimp only
    split_ifs with h1 h2
    · exact le_refl (0 : ℚ)
    · exact le_refl (0 : ℚ)
    · have hq : 0 < q := not_le.1 h1
      have hden : (0 : ℚ) < 1/4 + q + q ^ 2 / (3/2) := by positivity
      exact le_min (div_nonneg hq.le hden.le) (by norm_num)
  · unfold optimizeQDefault optimize_q
    dsimp only
    split_ifs with h1 h2
    · norm_num
    · norm_num
    · exact min_le_right _ _

/-- Witness for `C3_optimize_q_default` at `q = 1/2` and `q = -1`. -/
theorem C3_optimize_q_default_witness :
    optimizeQDefault (-1) = 0 ∧
    optimizeQDefault (1/2) =
      min ((1/2 : ℚ) / (1/4 + 1/2 + (1/2 : ℚ) ^ 2 / (3/2))) (19/20) ∧
    0 ≤ optimizeQDefault (1/2) ∧ optimizeQDefault (1/2) ≤ 19/20 :=
  ⟨(C3_optimize_q_default (-1)).1 (by norm_num),
   (C3_optimize_q_default (1/2)).2.1 (by norm_num),
   (C3_optimize_q_default (1/2)).2.2.1,
   (C3_optimize_q_default (1/2)).2.2.2⟩

/-- C4: `_assess_compassion_state` realizes exactly the ordered threshold
decision tree of the claim: CRISIS, then COMPASSION_FATIGUE, then
BURNOUT_PRECURSOR, then PROTECTIVE_DISTANCE, with FULL_PRESENCE as the final
default. -/
theorem C4_assess_compassion_state_tree (v : PhysicianGCTVariables) :
    (assess_compassion_state v = CompassionState.CRISIS ↔
      v.cumulative_grief_load > 7/10 ∧ v.compassion_reserve < 1/5) ∧
    (assess_compassion_state v = CompassionState.COMPASSION_FATIGUE ↔
      ¬(v.cumulative_grief_load > 7/10 ∧ v.compassion_reserve < 1/5) ∧
      (v.q > 3/5 ∧ v.wisdom_compression < 3/10)) ∧
    (assess_compassion_state v = CompassionState.BURNOUT_PRECURSOR ↔
      ¬(v.cumulative_grief_load > 7/10 ∧ v.compassion_reserve < 1/5) ∧
      ¬(v.q > 3/5 ∧ v.wisdom_compression < 3/10) ∧
      (v.cumulative_grief_load > 1/2 ∧ v.rho < 3/10)) ∧
    (assess_compassion_state v = CompassionState.PROTECTIVE_DISTANCE ↔
      ¬(v.cumulative_grief_load > 7/10 ∧ v.compassion_reserve < 1/5) ∧
      ¬(v.q > 3/5 ∧ v.wisdom_compression < 3/10) ∧
      ¬(v.cumulative_grief_load > 1/2 ∧ v.rho < 3/10) ∧
      (v.psi > 1/2 ∧ v.q < 1/2 ∧ v.compassion_reserve > 2/5)) ∧
    (assess_compassion_state v = CompassionState.FULL_PRESENCE ↔
      ¬(v.cumulative_grief_load > 7/10 ∧ v.compassion_reserve < 1/5) ∧
      ¬(v.q > 3/5 ∧ v.wisdom_compression < 3/10) ∧
      ¬(v.cumulative_grief_load > 1/2 ∧ v.rho < 3/10) ∧
      ¬(v.psi > 1/2 ∧ v.q < 1/2 ∧ v.compassion_reserve > 2/5)) := by
  unfold assess_compassion_state
  split_ifs with h1 h2 h3 h4 <;> simp_all

/-- C5: marker counting is a per-marker presence count over the lowercased
text: inputs with the same lowercasing receive identical counts, and the
count equals the number of markers with at least one occurrence — a marker
occurring several times still contributes exactly one. -/
theorem C5_marker_counting (markers : List (List Char)) (t1 t2 : List Char)
    (h : toLowerText t1 = toLowerText t2) :
    markerCount markers (toLowerText t1) = markerCount markers (toLowerText t2) ∧
    markerCount markers (toLowerText t1) =
      (markers.filter (fun m => 0 < occCount m (toLowerText t1))).length := by
  constructor
  · rw [h]
  · unfold markerCount
    rw [List.countP_eq_length_filter]
    congr 1
    apply List.filter_congr
    intro m _
    rcases Bool.eq_false_or_eq_true (hasSub m (toLowerText t1)) with hb | hb
    · rw [hb]
      have : 0 < occCount m (toLowerText t1) :=
        (hasSub_eq_true_iff m (toLowerText t1)).1 hb
      simp [this]
    · rw [hb]
      have : ¬ 0 < occCount m (toLowerText t1) := by
        rw [← hasSub_eq_true_iff, hb]
        simp
      simp [this]

/-- Witness for `C5_marker_counting`: the uppercase input "A Miss" and the
lowercase input "a miss" get the same count for the grief markers. -/
theorem C5_marker_counting_witness :
    toLowerText (chars "A Miss") = toLowerText (chars "a miss") ∧
    (markerCount GRIEF_MARKERS (toLowerText (chars "A Miss")) =
      markerCount GRIEF_MARKERS (toLowerText (chars "a miss")) ∧
     markerCount GRIEF_MARKERS (toLowerText (chars "A Miss")) =
      (GRIEF_MARKERS.filter
        (fun m => 0 < occCount m (toLowerText (chars "A Miss")))).length) :=
  ⟨by with_unfolding_all rfl,
   C5_marker_counting GRIEF_MARKERS (chars "A Miss") (chars "a miss")
     (by with_unfolding_all rfl)⟩

/-- C6 (counterexample): two variable records that are both classified as
FULL_PRESENCE receive different pattern summaries, because the summary
template interpolates the underlying scores (here Ψ = 0.00 versus Ψ = 0.25):
the narrative is not a function of the enum state alone. -/
theorem C6_counterexample_summary_not_state_function :
    assess_compassion_state ({} : PhysicianGCTVariables) =
      assess_compassion_state { psi := 1/4 } ∧
    generate_pattern_summary ({} : PhysicianGCTVariables)
        (assess_compassion_state {}) ≠
      generate_pattern_summary { psi := 1/4 }
        (assess_compassion_state { psi := 1/4 }) :=
  of_decide_eq_true (by with_unfolding_all rfl)

/-- C6 (amended): the lens recommendations are a pure lookup from the
computed mode, so equal modes give equal recommendation lists; the support
suggestions depend on the state together with the two thresholds `f < 0.3`
and `tau > 0.6` (and pattern summaries interpolate scores, see the
counterexample). -/
theorem C6_amended_narrative_dependencies (v1 v2 : PhysicianGCTVariables)
    (s : CompassionState) (t1 t2 : List Char)
    (hf : v1.f < 3/10 ↔ v2.f < 3/10) (ht : v1.tau > 3/5 ↔ v2.tau > 3/5)
    (hm : lensMode t1 = lensMode t2) :
    generate_support_suggestions v1 s = generate_support_suggestions v2 s ∧
    generate_recommendations (lensMode t1) =
      generate_recommendations (lensMode t2) := by
  constructor
  · unfold generate_support_suggestions
    dsimp only
    by_cases h1 : v1.f < 3/10
    · by_cases h2 : v1.tau > 3/5
      · rw [if_pos h1, if_pos (hf.1 h1), if_pos h2, if_pos (ht.1 h2)]
      · rw [if_pos h1, if_pos (hf.1 h1), if_neg h2,
          if_neg (fun hh => h2 (ht.2 hh))]
    · by_cases h2 : v1.tau > 3/5
      · rw [if_neg h1, if_neg (fun hh => h1 (hf.2 hh)), if_pos h2,
          if_pos (ht.1 h2)]
      · rw [if_neg h1, if_neg (fun hh => h1 (hf.2 hh)), if_neg h2,
          if_neg (fun hh => h2 (ht.2 hh))]
  · rw [hm]

/-- Witness for `C6_amended_narrative_dependencies` with concrete records,
state and texts. -/
theorem C6_amended_narrative_dependencies_witness :
    (({} : PhysicianGCTVariables).f < 3/10 ↔
      ({ psi := 1/4 } : PhysicianGCTVariables).f < 3/10) ∧
    (({} : PhysicianGCTVariables).tau > 3/5 ↔
      ({ psi := 1/4 } : PhysicianGCTVariables).tau > 3/5) ∧
    (generate_support_suggestions ({} : PhysicianGCTVariables)
        CompassionState.FULL_PRESENCE =
      generate_support_suggestions { psi := 1/4 }
        CompassionState.FULL_PRESENCE ∧
     generate_recommendations (lensMode (chars "x")) =
      generate_recommendations (lensMode (chars "x"))) :=
  ⟨of_decide_eq_true (by with_unfolding_all rfl),
   of_decide_eq_true (by with_unfolding_all rfl),
   C6_amended_narrative_dependencies {} { psi := 1/4 }
     CompassionState.FULL_PRESENCE (chars "x") (chars "x")
     (of_decide_eq_true (by with_unfolding_all rfl))
     (of_decide_eq_true (by with_unfolding_all rfl)) rfl⟩

/-! ## Claim C7: accumulation trend -/

theorem headD_map_ne {α β : Type} (f : α → β) (l : List α) (d : α) (e : β)
    (hl : l ≠ []) : (l.map f).headD e = f (l.headD d) := by
  cases l with
  | nil => cases hl rfl
  | cons a as => rfl

theorem getLastD_map_ne {α β : Type} (f : α → β) :
    ∀ (l : List α) (d : α) (e : β), l ≠ [] →
      (l.map f).getLastD e = f (l.getLastD d)
  | [], _, _, hl => absurd rfl hl
  | [a], _, _, _ => rfl
  | a :: b :: bs, d, e, _ => by
    show ((b :: bs).map f).getLastD (f a) = f ((b :: bs).getLastD a)
    exact getLastD_map_ne f (b :: bs) a (f a) (by simp)

/-- C7 (counterexample): on a history of three identical records the
compassion-reserve trend label is the string "decreasing", not the
"stable_or_decreasing" label the claim predicts for the non-increasing
case. -/
theorem C7_counterexample_reserve_label :
    (get_accumulation_trend (List.replicate 3 ({} : PhysicianGCTVariables))).map
      (fun r => r.reserve_direction) = some "decreasing" ∧
    (get_accumulation_trend (List.replicate 3 ({} : PhysicianGCTVariables))).map
      (fun r => r.reserve_direction) ≠ some "stable_or_decreasing" :=
  of_decide_eq_true (by with_unfolding_all rfl)

/-- C7 (amended): `get_accumulation_trend` returns `none` exactly when fewer
than 3 records are tracked; otherwise it reports on the window of the most
recent at most 5 records, with `sample_size = min(length, 5)`, labels
"increasing" / "stable_or_decreasing" for grief and wisdom according to
whether the last window entry strictly exceeds the first, and labels
"increasing" / "decreasing" (not "stable_or_decreasing") for the reserve. -/
theorem C7_amended_trend (history : List PhysicianGCTVariables) :
    (get_accumulation_trend history = none ↔ history.length < 3) ∧
    (3 ≤ history.length →
      get_accumulation_trend history = some
        { grief_direction :=
            if ((history.drop (history.length - 5)).getLastD {}).cumulative_grief_load >
               ((history.drop (history.length - 5)).headD {}).cumulative_grief_load
            then "increasing" else "stable_or_decreasing"
          wisdom_direction :=
            if ((history.drop (history.length - 5)).getLastD {}).rho >
               ((history.drop (history.length - 5)).headD {}).rho
            then "increasing" else "stable_or_decreasing"
          reserve_direction :=
            if ((history.drop (history.length - 5)).getLastD {}).compassion_reserve >
               ((history.drop (history.length - 5)).headD {}).compassion_reserve
            then "increasing" else "decreasing"
          sample_size := min history.length 5
          note := "Trends are patterns, not predictions. Use as reflection prompt, not diagnosis." }) := by
  constructor
  · unfold get_accumulation_trend
    split_ifs with h
    · simp [h]
    · simp [h]
  · intro h3
    have h : ¬ history.length < 3 := not_lt.2 h3
    have hne : history.drop (history.length - 5) ≠ [] := by
      rw [← List.length_pos, List.length_drop]
      omega
    unfold get_accumulation_trend
    rw [if_neg h]
    dsimp only
    rw [getLastD_map_ne (fun v => v.cumulative_grief_load)
        (history.drop (history.length - 5)) {} 0 hne,
      headD_map_ne (fun v => v.cumulative_grief_load)
        (history.drop (history.length - 5)) {} 0 hne,
      getLastD_map_ne (fun v => v.rho)
        (history.drop (history.length - 5)) {} 0 hne,
      headD_map_ne (fun v => v.rho)
        (history.drop (history.length - 5)) {} 0 hne,
      getLastD_map_ne (fun v => v.compassion_reserve)
        (history.drop (history.length - 5)) {} 0 hne,
      headD_map_ne (fun v => v.compassion_reserve)
        (history.drop (history.length - 5)) {} 0 hne,
      List.length_drop]
    have hmin : history.length - (history.length - 5) = min history.length 5 := by
      omega
    rw [hmin]

/-- Witness for `C7_amended_trend` on a three-record history whose reserve
rises. -/
theorem C7_amended_trend_witness :
    3 ≤ [({} : PhysicianGCTVariables), {},
      { compassion_reserve := 1 }].length ∧
    get_accumulation_trend
      [({} : PhysicianGCTVariables), {}, { compassion_reserve := 1 }] = some
        { grief_direction := "stable_or_decreasing"
          wisdom_direction := "stable_or_decreasing"
          reserve_direction := "increasing"
          sample_size := 3
          note := "Trends are patterns, not predictions. Use as reflection prompt, not diagnosis." } := by
  refine ⟨by simp, ?_⟩
  rw [(C7_amended_trend [({} : PhysicianGCTVariables), {},
    { compassion_reserve := 1 }]).2 (by simp)]
  exact of_decide_eq_true (by with_unfolding_all rfl)

/-! ## Grief-to-wisdom transformer (`grief_wisdom_transformer.py`) -/

inductive GriefPhase where
  | RAW
  | ACKNOWLEDGED
  | PROCESSING
  | INTEGRATING
  | COMPRESSED
deriving Repr, DecidableEq

inductive WisdomType where
  | PRESENCE
  | COMMUNICATION
  | COMPASSION
  | PERSPECTIVE
  | RESILIENCE
  | SERVICE
deriving Repr, DecidableEq

/-- Iteration order of the `WisdomType` enum. -/
def allWisdomTypes : List WisdomType :=
  [WisdomType.PRESENCE, WisdomType.COMMUNICATION, WisdomType.COMPASSION,
   WisdomType.PERSPECTIVE, WisdomType.RESILIENCE, WisdomType.SERVICE]

/-- The `.value` string of a `WisdomType`. -/
def wisdomTypeValue : WisdomType → String
  | WisdomType.PRESENCE => "presence"
  | WisdomType.COMMUNICATION => "communication"
  | WisdomType.COMPASSION => "compassion"
  | WisdomType.PERSPECTIVE => "perspective"
  | WisdomType.RESILIENCE => "resilience"
  | WisdomType.SERVICE => "service"

structure GriefEvent where
  event_id : String
  timestamp : ℕ
  patient_type : String
  relationship_depth : ℚ
  circumstances : List String
  initial_intensity : ℚ
  current_phase : GriefPhase := GriefPhase.RAW
  wisdom_extracted : List WisdomType := []
  processing_attempts : ℕ := 0
  last_processed : Option ℕ := none
deriving Repr, DecidableEq

structure WisdomFragment where
  wisdom_type : WisdomType
  source_events : List String
  insight : String
  accessibility : ℚ
  shareable : Bool
  extraction_date : ℕ := 0
deriving Repr, DecidableEq

structure TransformationResult where
  grief_events_processed : ℕ
  wisdom_generated : List WisdomFragment
  rho_change : ℚ
  remaining_load : ℚ
  pathway_used : String
  reflections : List String
  next_steps : List String
deriving Repr, DecidableEq

/-- The mutable state of a `GriefWisdomTransformer`: its registry (an
insertion-ordered dictionary, modelled as an association list) and its
wisdom bank. -/
structure TransformerState where
  grief_registry : List (String × GriefEvent) := []
  wisdom_bank : List WisdomFragment := []
deriving Repr, DecidableEq

/-- `self.processing_threshold`. -/
def processing_threshold : ℕ := 3

/-- Dictionary lookup (`event_id in self.grief_registry`, first match). -/
def regLookup : List (String × GriefEvent) → String → Option GriefEvent
  | [], _ => none
  | (k, v) :: rest, id => if k = id then some v else regLookup rest id

/-- Dictionary value replacement for an existing key. -/
def updateReg (reg : List (String × GriefEvent)) (eid : String)
    (e : GriefEvent) : List (String × GriefEvent) :=
  reg.map (fun kv => if kv.1 = eid then (kv.1, e) else kv)

/-- `GriefWisdomTransformer.get_current_load`. -/
def get_current_load (s : TransformerState) : ℚ :=
  let phaseWeight : GriefPhase → ℚ := fun p =>
    match p with
    | GriefPhase.RAW => 1
    | GriefPhase.ACKNOWLEDGED => 4/5
    | GriefPhase.PROCESSING => 1/2
    | GriefPhase.INTEGRATING => 3/10
    | GriefPhase.COMPRESSED => 1/10
  let total := (s.grief_registry.map (fun kv =>
    kv.2.initial_intensity * phaseWeight kv.2.current_phase *
      kv.2.relationship_depth)).sum
  min (total / 10) 1

/-- `GriefWisdomTransformer.get_current_rho`. -/
def get_current_rho (s : TransformerState) : ℚ :=
  if s.wisdom_bank.isEmpty then 0
  else min ((s.wisdom_bank.map (fun w => w.accessibility)).sum / 10) 1

/-- Marker table of `_extract_wisdom_from_reflection`. -/
def wisdomMarkersFor : WisdomType → List (List Char)
  | WisdomType.PRESENCE =>
      ["being with", "showed up", "present", "stayed"].map chars
  | WisdomType.COMMUNICATION =>
      ["said", "told", "words", "listen", "heard"].map chars
  | WisdomType.COMPASSION =>
      ["feel", "connect", "human", "heart", "care"].map chars
  | WisdomType.PERSPECTIVE =>
      ["realize", "understand", "matter", "important", "life"].map chars
  | WisdomType.RESILIENCE =>
      ["continue", "strength", "endure", "carry on", "cope"].map chars
  | WisdomType.SERVICE =>
      ["help", "share", "teach", "guide", "support"].map chars

def shareable_markers : List (List Char) :=
  ["others", "anyone", "people", "colleagues", "we"].map chars

/-- `GriefWisdomTransformer._summarize_insight` (template-based). -/
def summarize_insight (wisdom_type : WisdomType) : String :=
  match wisdom_type with
  | WisdomType.PRESENCE => "Learned to be present with suffering in new ways"
  | WisdomType.COMMUNICATION => "Discovered what words matter when facing loss"
  | WisdomType.COMPASSION =>
      "Deepened capacity for human connection through shared grief"
  | WisdomType.PERSPECTIVE =>
      "Gained clarity on what matters through witnessing loss"
  | WisdomType.RESILIENCE =>
      "Found inner resources to continue serving through difficulty"
  | WisdomType.SERVICE => "Discovered how grief equips us to help others"

/-- `GriefWisdomTransformer._extract_wisdom_from_reflection`. -/
def extract_wisdom_from_reflection (text : List Char) (wisdom_type : WisdomType)
    (source_events : List String) (now : ℕ) : Option WisdomFragment :=
  let markers := wisdomMarkersFor wisdom_type
  let textLower := toLowerText text
  let marker_count := markerCount markers textLower
  if marker_count < 2 then none
  else
    let word_count := wordCount text
    let accessibility :=
      min ((word_count : ℚ) / 100) (4/5) + (marker_count : ℚ) * (1/20)
    let shareable := shareable_markers.any (fun m => hasSub m textLower)
    some { wisdom_type := wisdom_type
           source_events := source_events
           insight := summarize_insight wisdom_type
           accessibility := min accessibility 1
           shareable := shareable
           extraction_date := now }

/-- The phase-advance block of `process_reflection` (run after the
processing-attempt counter has been incremented). -/
def advanceEventPhase (e : GriefEvent) : GriefEvent :=
  if e.current_phase = GriefPhase.RAW then
    { e with current_phase := GriefPhase.ACKNOWLEDGED }
  else if e.current_phase = GriefPhase.ACKNOWLEDGED ∧ e.processing_attempts ≥ 2 then
    { e with current_phase := GriefPhase.PROCESSING }
  else if e.current_phase = GriefPhase.PROCESSING ∧
      e.processing_attempts ≥ processing_threshold then
    { e with current_phase := GriefPhase.INTEGRATING }
  else e

/-- `GriefWisdomTransformer._generate_transformation_reflections`. -/
def generate_transformation_reflections (e : GriefEvent)
    (wisdom_type : WisdomType) : List String :=
  let head :=
    if e.current_phase = GriefPhase.COMPRESSED then
      "This loss has moved through transformation. The grief has compressed into wisdom that can serve others."
    else if e.current_phase = GriefPhase.INTEGRATING then
      "Integration is occurring. The loss is becoming part of your expanded capacity rather than just weight carried."
    else
      "Processing continues. Each deliberate return adds to transformation."
  let typed :=
    match wisdom_type with
    | WisdomType.PRESENCE =>
        "The capacity to be with suffering grows with each encounter honored."
    | WisdomType.COMMUNICATION =>
        "Words found in grief\x27s depth often reach others facing similar shadows."
    | WisdomType.COMPASSION =>
        "The heart broken open by loss holds more, not less."
    | WisdomType.PERSPECTIVE =>
        "Loss clarifies what matters—a gift wrapped in darkness."
    | WisdomType.RESILIENCE =>
        "Each passage through grief maps the terrain for those who follow."
    | WisdomType.SERVICE =>
        "What you extract from your suffering becomes medicine for others."
  [head, typed]

/-- `GriefWisdomTransformer._generate_next_steps`. -/
def generate_next_steps (e : GriefEvent) : List String :=
  let base :=
    match e.current_phase with
    | GriefPhase.RAW =>
        ["Allow acknowledgment without forcing processing",
         "Notice when this loss surfaces—these are invitations, not intrusions"]
    | GriefPhase.ACKNOWLEDGED =>
        ["When ready, consider which dimension of wisdom this loss offers",
         "Short, time-bounded deliberate reflection more helpful than extended rumination"]
    | GriefPhase.PROCESSING =>
        ["Continue deliberate engagement—transformation is in process",
         "Consider sharing insights with trusted colleague"]
    | GriefPhase.INTEGRATING =>
        ["Notice how this loss has changed your practice",
         "The wisdom is becoming accessible—let it inform how you serve"]
    | GriefPhase.COMPRESSED =>
        ["This transformation is largely complete",
         "The wisdom can now be shared without re-opening the wound"]
  let remaining := allWisdomTypes.filter (fun t => t ∉ e.wisdom_extracted)
  match remaining with
  | [] => base
  | t :: _ =>
    if e.current_phase ≠ GriefPhase.RAW ∧
        e.current_phase ≠ GriefPhase.COMPRESSED then
      base ++ ["Consider exploring: " ++ wisdomTypeValue t]
    else base

/-- `GriefWisdomTransformer.process_reflection`.  The guard raising
`ValueError` is modelled by returning `Except.error` together with the
unchanged state. -/
def process_reflection (s : TransformerState) (event_id : String)
    (reflection_text : List Char) (wisdom_type : WisdomType) (now : ℕ) :
    TransformerState × Except String TransformationResult :=
  match regLookup s.grief_registry event_id with
  | none => (s, Except.error ("Unknown event: " ++ event_id))
  | some event0 =>
    let event1 := { event0 with
      processing_attempts := event0.processing_attempts + 1
      last_processed := some now }
    let event2 := advanceEventPhase event1
    let wisdom := extract_wisdom_from_reflection reflection_text wisdom_type
      [event_id] now
    let afterWisdom : TransformerState × GriefEvent :=
      match wisdom with
      | some w =>
        let e3 := { event2 with
          wisdom_extracted := event2.wisdom_extracted ++ [wisdom_type] }
        let e4 :=
          if e3.wisdom_extracted.length ≥ 3 then
            { e3 with current_phase := GriefPhase.COMPRESSED }
          else e3
        ({ s with wisdom_bank := s.wisdom_bank ++ [w] }, e4)
      | none => (s, event2)
    let s3 : TransformerState := { afterWisdom.1 with
      grief_registry := updateReg afterWisdom.1.grief_registry event_id afterWisdom.2 }
    (s3, Except.ok
      { grief_events_processed := 1
        wisdom_generated := match wisdom with | some w => [w] | none => []
        rho_change := if wisdom.isSome then 1/10 else 0
        remaining_load := get_current_load s3
        pathway_used := wisdomTypeValue wisdom_type
        reflections := generate_transformation_reflections afterWisdom.2 wisdom_type
        next_steps := generate_next_steps afterWisdom.2 })

/-- `true` exactly on the error outcome (the modelled `ValueError`). -/
def exceptFailed {ε α : Type} : Except ε α → Bool
  | Except.error _ => true
  | Except.ok _ => false

/-- One call of a `process_reflection` sequence. -/
structure ReflectionCall where
  event_id : String
  reflection_text : List Char
  wisdom_type : WisdomType
  now : ℕ

/-- Run a sequence of `process_reflection` calls; a call that raises leaves
the state unchanged. -/
def runReflections (s : TransformerState) : List ReflectionCall → TransformerState
  | [] => s
  | c :: rest =>
    runReflections
      (process_reflection s c.event_id c.reflection_text c.wisdom_type c.now).1
      rest

/-- Position of a phase in the transformation order. -/
def phaseIdx : GriefPhase → ℕ
  | GriefPhase.RAW => 0
  | GriefPhase.ACKNOWLEDGED => 1
  | GriefPhase.PROCESSING => 2
  | GriefPhase.INTEGRATING => 3
  | GriefPhase.COMPRESSED => 4

/-! ## Claims C9 and C10 -/

theorem phaseIdx_le_four (p : GriefPhase) : phaseIdx p ≤ 4 := by
  cases p <;> simp [phaseIdx]

theorem phaseIdx_four_eq (p : GriefPhase) (h : 4 ≤ phaseIdx p) :
    p = GriefPhase.COMPRESSED := by
  cases p <;> simp_all [phaseIdx]

theorem phaseIdx_advanceEventPhase (e : GriefEvent) :
    phaseIdx e.current_phase ≤ phaseIdx (advanceEventPhase e).current_phase := by
  unfold advanceEventPhase
  split_ifs with h1 h2 h3 <;> simp_all [phaseIdx]

theorem regLookup_updateReg_ne (eid : String) (e : GriefEvent) (id : String)
    (h : id ≠ eid) :
    ∀ reg : List (String × GriefEvent),
      regLookup (updateReg reg eid e) id = regLookup reg id := by
  intro reg
  induction reg with
  | nil => rfl
  | cons kv rest ih =>
    obtain ⟨k, v⟩ := kv
    simp only [updateReg, List.map_cons] at ih ⊢
    by_cases hk : k = eid
    · rw [show (if (k, v).1 = eid then ((k, v).1, e) else (k, v)) = (k, e) by
        simp [hk]]
      have hki : ¬ k = id := fun hh => h (hh ▸ hk)
      simp only [regLookup, if_neg hki]
      exact ih
    · rw [show (if (k, v).1 = eid then ((k, v).1, e) else (k, v)) = (k, v) by
        simp [hk]]
      by_cases hki : k = id
      · simp only [regLookup, if_pos hki]
      · simp only [regLookup, if_neg hki]
        exact ih

theorem regLookup_updateReg_self (eid : String) (e : GriefEvent) :
    ∀ reg : List (String × GriefEvent), (regLookup reg eid).isSome →
      regLookup (updateReg reg eid e) eid = some e := by
  intro reg
  induction reg with
  | nil => intro h; simp [regLookup] at h
  | cons kv rest ih =>
    obtain ⟨k, v⟩ := kv
    intro h
    simp only [updateReg, List.map_cons] at ih ⊢
    by_cases hk : k = eid
    · rw [show (if (k, v).1 = eid then ((k, v).1, e) else (k, v)) = (k, e) by
        simp [hk]]
      simp only [regLookup, if_pos hk]
    · rw [show (if (k, v).1 = eid then ((k, v).1, e) else (k, v)) = (k, v) by
        simp [hk]]
      simp only [regLookup, if_neg hk] at h ⊢
      exact ih h

theorem process_reflection_preserves (s : TransformerState) (eid : String)
    (text : List Char) (wt : WisdomType) (now : ℕ) (id : String)
    (e : GriefEvent) (h1 : regLookup s.grief_registry id = some e) :
    ∃ e2, regLookup
        (process_reflection s eid text wt now).1.grief_registry id = some e2 ∧
      phaseIdx e.current_phase ≤ phaseIdx e2.current_phase := by
  unfold process_reflection
  cases hx : regLookup s.grief_registry eid with
  | none =>
    exact ⟨e, h1, le_refl _⟩
  | some ev =>
    dsimp only
    by_cases hid : id = eid
    · subst hid
      rw [h1] at hx
      have hee : e = ev := by injection hx
      subst hee
      have hsome : (regLookup s.grief_registry id).isSome := by rw [h1]; rfl
      cases hw : extract_wisdom_from_reflection text wt [id] now with
      | none =>
        dsimp only
        refine ⟨_, regLookup_updateReg_self id _ _ hsome, ?_⟩
        exact phaseIdx_advanceEventPhase { e with
          processing_attempts := e.processing_attempts + 1
          last_processed := some now }
      | some w =>
        dsimp only
        split_ifs with h3
        · refine ⟨_, regLookup_updateReg_self id _ _ hsome, ?_⟩
          exact le_trans (phaseIdx_le_four _) (le_refl _)
        · refine ⟨_, regLookup_updateReg_self id _ _ hsome, ?_⟩
          exact phaseIdx_advanceEventPhase { e with
            processing_attempts := e.processing_attempts + 1
            last_processed := some now }
    · cases hw : extract_wisdom_from_reflection text wt [eid] now with
      | none =>
        dsimp only
        rw [regLookup_updateReg_ne eid _ id hid]
        exact ⟨e, h1, le_refl _⟩
      | some w =>
        dsimp only
        split_ifs with h3
        · rw [regLookup_updateReg_ne eid _ id hid]
          exact ⟨e, h1, le_refl _⟩
        · rw [regLookup_updateReg_ne eid _ id hid]
          exact ⟨e, h1, le_refl _⟩

theorem runReflections_preserves (calls : List ReflectionCall) :
    ∀ (s : TransformerState) (id : String) (e : GriefEvent),
      regLookup s.grief_registry id = some e →
      ∃ e2, regLookup (runReflections s calls).grief_registry id = some e2 ∧
        phaseIdx e.current_phase ≤ phaseIdx e2.current_phase := by
  induction calls with
  | nil =>
    intro s id e h1
    exact ⟨e, h1, le_refl _⟩
  | cons c rest ih =>
    intro s id e h1
    obtain ⟨e1, he1, hle1⟩ := process_reflection_preserves s c.event_id
      c.reflection_text c.wisdom_type c.now id e h1
    obtain ⟨e2, he2, hle2⟩ := ih _ id e1 he1
    exact ⟨e2, he2, le_trans hle1 hle2⟩

/-- C9: `process_reflection` fails (the modelled `ValueError`) exactly when
the event id is not registered, and in that case the transformer state —
registry and wisdom bank — is unchanged. -/
theorem C9_process_reflection_error (s : TransformerState) (eid : String)
    (text : List Char) (wt : WisdomType) (now : ℕ) :
    (exceptFailed (process_reflection s eid text wt now).2 = true ↔
      regLookup s.grief_registry eid = none) ∧
    (regLookup s.grief_registry eid = none →
      (process_reflection s eid text wt now).1 = s) := by
  unfold process_reflection
  cases hx : regLookup s.grief_registry eid with
  | none =>
    exact ⟨⟨fun _ => rfl, fun _ => rfl⟩, fun _ => rfl⟩
  | some ev =>
    refine ⟨⟨fun hff => ?_, fun hnn => ?_⟩, fun hnn => ?_⟩
    · simp [exceptFailed] at hff
    · exact Option.noConfusion hnn
    · exact Option.noConfusion hnn

/-- Witness for `C9_process_reflection_error` on an empty registry. -/
theorem C9_process_reflection_error_witness :
    regLookup ({} : TransformerState).grief_registry "x" = none ∧
    (process_reflection {} "x" (chars "hi") WisdomType.PRESENCE 0).1 =
      ({} : TransformerState) :=
  ⟨rfl, (C9_process_reflection_error {} "x" (chars "hi")
    WisdomType.PRESENCE 0).2 rfl⟩

/-- C10: across any sequence of `process_reflection` calls, the phase of a
registered grief event never moves backward along
RAW < ACKNOWLEDGED < PROCESSING < INTEGRATING < COMPRESSED, and an event
that has reached COMPRESSED stays COMPRESSED. -/
theorem C10_phase_monotone (s : TransformerState) (calls : List ReflectionCall)
    (id : String) (e e2 : GriefEvent)
    (h1 : regLookup s.grief_registry id = some e)
    (h2 : regLookup (runReflections s calls).grief_registry id = some e2) :
    phaseIdx e.current_phase ≤ phaseIdx e2.current_phase ∧
    (e.current_phase = GriefPhase.COMPRESSED →
      e2.current_phase = GriefPhase.COMPRESSED) := by
  obtain ⟨e3, he3, hle⟩ := runReflections_preserves calls s id e h1
  rw [h2] at he3
  have hee : e2 = e3 := by injection he3
  subst hee
  constructor
  · exact hle
  · intro hc
    rw [hc] at hle
    exact phaseIdx_four_eq _ hle

/-- A sample registered event, transformer state and call sequence used to
witness the phase-monotonicity theorem. -/
def sampleGriefEvent : GriefEvent :=
  { event_id := "a", timestamp := 0, patient_type := "adult",
    relationship_depth := 1/2, circumstances := [], initial_intensity := 1/2 }

def sampleState : TransformerState :=
  { grief_registry := [("a", sampleGriefEvent)], wisdom_bank := [] }

def sampleCalls : List ReflectionCall :=
  [{ event_id := "a", reflection_text := chars "hello",
     wisdom_type := WisdomType.PRESENCE, now := 1 }]

def sampleAfterEvent : GriefEvent :=
  { sampleGriefEvent with
    processing_attempts := 1
    last_processed := some 1
    current_phase := GriefPhase.ACKNOWLEDGED }

/-- Witness for `C10_phase_monotone`: one call advances the sample event from
RAW to ACKNOWLEDGED. -/
theorem C10_phase_monotone_witness :
    regLookup sampleState.grief_registry "a" = some sampleGriefEvent ∧
    regLookup (runReflections sampleState sampleCalls).grief_registry "a" =
      some sampleAfterEvent ∧
    (phaseIdx sampleGriefEvent.current_phase ≤
        phaseIdx sampleAfterEvent.current_phase ∧
      (sampleGriefEvent.current_phase = GriefPhase.COMPRESSED →
        sampleAfterEvent.current_phase = GriefPhase.COMPRESSED)) :=
  ⟨by with_unfolding_all rfl, by with_unfolding_all rfl,
   C10_phase_monotone sampleState sampleCalls "a" sampleGriefEvent
     sampleAfterEvent (by with_unfolding_all rfl)
     (by with_unfolding_all rfl)⟩

/-! ## Cultural bridge (`cultural_bridge.py`) -/

inductive DecisionMakingStyle where
  | INDIVIDUAL_AUTONOMY
  | FAMILY_COLLECTIVE
  | ELDER_DIRECTED
  | COMMUNITY_CONSENSUS
  | RELIGIOUS_AUTHORITY
deriving Repr, DecidableEq

def decisionStyleValue : DecisionMakingStyle → String
  | DecisionMakingStyle.INDIVIDUAL_AUTONOMY => "individual"
  | DecisionMakingStyle.FAMILY_COLLECTIVE => "family"
  | DecisionMakingStyle.ELDER_DIRECTED => "elder"
  | DecisionMakingStyle.COMMUNITY_CONSENSUS => "community"
  | DecisionMakingStyle.RELIGIOUS_AUTHORITY => "religious"

inductive DisclosurePreference where
  | FULL_DISCLOSURE
  | GRADUATED_DISCLOSURE
  | FAMILY_MEDIATED
  | PROTECTIVE_NON_DISCLOSURE
  | PATIENT_CHOICE
deriving Repr, DecidableEq

def disclosureValue : DisclosurePreference → String
  | DisclosurePreference.FULL_DISCLOSURE => "full"
  | DisclosurePreference.GRADUATED_DISCLOSURE => "graduated"
  | DisclosurePreference.FAMILY_MEDIATED => "family_first"
  | DisclosurePreference.PROTECTIVE_NON_DISCLOSURE => "protective"
  | DisclosurePreference.PATIENT_CHOICE => "patient_choice"

inductive DeathBeliefs where
  | REINCARNATION
  | HEAVEN_HELL
  | CONTINUATION
  | FINALITY
  | LIBERATION
  | UNKNOWN
deriving Repr, DecidableEq

def deathBeliefsValue : DeathBeliefs → String
  | DeathBeliefs.REINCARNATION => "reincarnation"
  | DeathBeliefs.HEAVEN_HELL => "heaven_hell"
  | DeathBeliefs.CONTINUATION => "continuation"
  | DeathBeliefs.FINALITY => "finality"
  | DeathBeliefs.LIBERATION => "liberation"
  | DeathBeliefs.UNKNOWN => "unknown"

/-- `CulturalProfile`; `suggested_language` is a Python dict, modelled as an
association list. -/
structure CulturalProfile where
  tradition_name : String
  decision_style : DecisionMakingStyle
  disclosure_preference : DisclosurePreference
  death_beliefs : DeathBeliefs
  important_concepts : List String := []
  suggested_language : List (String × String) := []
  avoid_language : List String := []
  end_of_life_rituals : List String := []
  ritual_timing : String := ""
  key_family_roles : List String := []
  suffering_beliefs : String := ""
deriving Repr, DecidableEq

def HINDU_INDIAN_PROFILE : CulturalProfile :=
  { tradition_name := "Hindu (Indian)"
    decision_style := DecisionMakingStyle.FAMILY_COLLECTIVE
    disclosure_preference := DisclosurePreference.FAMILY_MEDIATED
    death_beliefs := DeathBeliefs.REINCARNATION
    important_concepts := [
      "Karma - accumulated effects of actions across lifetimes",
      "Dharma - righteous duty and ethical living",
      "Moksha - liberation from cycle of rebirth",
      "Samsara - cycle of death and rebirth",
      "Good death (sukmrityu) vs bad death",
      "Consciousness at time of death affects next life",
      "Family dharma - duties to perform last rites"]
    suggested_language := [
      ("prognosis", "The illness is progressing beyond what medicine can reverse"),
      ("death_approaching", "The time may be coming for the soul\x27s journey"),
      ("comfort_focus", "We can focus on keeping them comfortable and present"),
      ("family_role", "Your presence and prayers matter greatly now"),
      ("consciousness", "Maintaining clarity of mind is important to many families"),
      ("transition", "This is a transition, not an ending")]
    avoid_language := [
      "There\x27s nothing more we can do",
      "We need to withdraw care",
      "Death is imminent",
      "We\x27re giving up",
      "It\x27s time to let go"]
    end_of_life_rituals := [
      "Family may wish to read from holy texts (Bhagavad Gita)",
      "Sanctified water (Ganga jal) may be offered to lips",
      "Tulsi (holy basil) leaf may be placed on tongue",
      "Family may wish patient to be on floor (return to earth)",
      "Mantra recitation - focusing dying person\x27s thoughts on God",
      "Many families prefer patient to die at home",
      "Lamp may be lit near patient\x27s head",
      "Cremation is standard - body should be handled respectfully"]
    ritual_timing := "Rituals should ideally be performed before death; some families prefer to begin when death seems near"
    key_family_roles := [
      "Eldest son often has specific ritual duties",
      "Extended family may be involved in decisions",
      "Religious authority (pandit) may be consulted",
      "Family elders may coordinate with medical team"]
    suffering_beliefs := "Suffering may be understood through karma lens - not as punishment but as opportunity for spiritual growth and clearing of past karma. Some patients may prefer less pain medication to maintain consciousness. However, this varies greatly by individual and family. Always ask." }

def GENERAL_SOUTH_ASIAN_PROFILE : CulturalProfile :=
  { tradition_name := "South Asian (General)"
    decision_style := DecisionMakingStyle.FAMILY_COLLECTIVE
    disclosure_preference := DisclosurePreference.FAMILY_MEDIATED
    death_beliefs := DeathBeliefs.UNKNOWN
    important_concepts := [
      "Family honor and collective well-being often prioritized",
      "Elder respect - decisions may defer to family elders",
      "Izzat (honor/reputation) may affect openness to discussing death",
      "Immigration context may affect support systems"]
    suggested_language := [
      ("family_inclusion", "Who would you like to be involved in these discussions?"),
      ("respecting_structure", "We want to communicate in the way that works for your family"),
      ("elder_consultation", "Would your family like time to consult together?")]
    avoid_language := [
      "Assuming individual autonomy model",
      "Pressuring immediate decisions",
      "Discussing prognosis without checking family preferences"]
    end_of_life_rituals := []
    ritual_timing := "Ask family about timing and ritual needs"
    key_family_roles := [
      "Identify family spokesperson",
      "Ask about elder involvement preferences",
      "Understand who should receive information first"]
    suffering_beliefs := "Varies significantly by religious and family background. Ask: \x27How does your family understand suffering and illness?\x27" }

/-- The guidance dictionary assembled by `get_communication_guidance`. -/
structure Guidance where
  cultural_awareness : List String := []
  suggested_approach : List String := []
  suggested_language : List String := []
  cautions : List String := []
  questions_to_ask_family : List String := []
  ritual_considerations : List String := []
  critical_reminder : String := ""
deriving Repr, DecidableEq

/-- `self.universal_principles[0]`. -/
def universal_principle_head : String :=
  "Always ask the family about their specific preferences"

/-- `self.profiles` lookup on an already-lowercased key. -/
def profilesLookup (key : String) : Option CulturalProfile :=
  if key = "hindu_indian" then some HINDU_INDIAN_PROFILE
  else if key = "south_asian_general" then some GENERAL_SOUTH_ASIAN_PROFILE
  else none

/-- `CulturalBridge.get_profile`. -/
def get_profile (cultural_key : String) : Option CulturalProfile :=
  profilesLookup (cultural_key.map Char.toLower)

/-- `CulturalBridge._get_generic_guidance` (its `context` argument is
unused in the source). -/
def get_generic_guidance (_context : String) : Guidance :=
  { cultural_awareness :=
      ["No specific cultural profile - approach with cultural humility"]
    suggested_approach :=
      ["Ask about family preferences before assuming communication style",
       "Inquire about religious or spiritual needs",
       "Ask who should be involved in discussions and decisions"]
    suggested_language := []
    cautions :=
      ["Don\x27t assume Western individual autonomy model",
       "Don\x27t assume patient wants full direct disclosure"]
    questions_to_ask_family :=
      ["How does your family prefer to make medical decisions together?",
       "Are there cultural or religious considerations we should know about?",
       "Who would you like to be present for important discussions?"]
    ritual_considerations :=
      ["Ask about any end-of-life rituals that are important to the family"]
    critical_reminder := universal_principle_head }

/-- `CulturalBridge._add_prognosis_guidance`.  (The Python truthiness test
on `suggested_language.get(...)` is modelled by the `Option` match; the
stored phrases are all non-empty.) -/
def add_prognosis_guidance (g : Guidance) (p : CulturalProfile) : Guidance :=
  let g1 :=
    if p.disclosure_preference = DisclosurePreference.FAMILY_MEDIATED then
      { g with
        suggested_approach := g.suggested_approach ++
          ["Consider meeting with family first before patient",
           "Ask: \x27How does your family prefer to receive difficult news?\x27",
           "Allow family to determine how much patient is told"]
        questions_to_ask_family := g.questions_to_ask_family ++
          ["Who should be involved in these discussions?",
           "How much information would you like your loved one to receive directly?",
           "What is the best way for us to communicate with your family?"] }
    else g
  let g2 :=
    match p.suggested_language.lookup "prognosis" with
    | some lang => { g1 with suggested_language := g1.suggested_language ++ [lang] }
    | none => g1
  if p.avoid_language.isEmpty then g2
  else
    let cautionLines := (p.avoid_language.take 3).map
      (fun phrase => "Consider avoiding: \x27" ++ phrase ++ "\x27")
    { g2 with cautions := g2.cautions ++ cautionLines }

/-- `CulturalBridge._add_goals_guidance`. -/
def add_goals_guidance (g : Guidance) (p : CulturalProfile) : Guidance :=
  let g1 :=
    if p.decision_style = DecisionMakingStyle.FAMILY_COLLECTIVE then
      { g with suggested_approach := g.suggested_approach ++
          ["Allow time for family consultation before decisions",
           "Ask about family hierarchy and who should be in the room",
           "Understand that decisions may take longer than Western model expects"] }
    else g
  let g2 :=
    if p.key_family_roles.isEmpty then g1
    else
      let roleLine := "Key roles to be aware of: " ++
        String.intercalate ", " (p.key_family_roles.take 2)
      { g1 with suggested_approach := g1.suggested_approach ++ [roleLine] }
  if p.suffering_beliefs = "" then g2
  else
    { g2 with
      cultural_awareness := g2.cultural_awareness ++
        ["Perspective on suffering: " ++ p.suffering_beliefs.take 200 ++ "..."]
      questions_to_ask_family := g2.questions_to_ask_family ++
        ["How does your family understand suffering and what gives comfort?"] }

/-- `CulturalBridge._add_imminent_death_guidance`. -/
def add_imminent_death_guidance (g : Guidance) (p : CulturalProfile) : Guidance :=
  let g1 :=
    if p.end_of_life_rituals.isEmpty then g
    else
      { g with
        ritual_considerations := g.ritual_considerations ++
          p.end_of_life_rituals.take 5
        suggested_approach := g.suggested_approach ++
          ["Ask family about ritual preferences early enough to accommodate"] }
  let g2 :=
    if p.ritual_timing = "" then g1
    else
      let timingLine := "Timing note: " ++ p.ritual_timing
      { g1 with ritual_considerations :=
          g1.ritual_considerations ++ [timingLine] }
  let g3 :=
    match p.suggested_language.lookup "death_approaching" with
    | some lang => { g2 with suggested_language := g2.suggested_language ++ [lang] }
    | none => g2
  let g4 :=
    match p.suggested_language.lookup "transition" with
    | some lang => { g3 with suggested_language := g3.suggested_language ++ [lang] }
    | none => g3
  { g4 with questions_to_ask_family := g4.questions_to_ask_family ++
      ["What are your wishes regarding pain medication?",
       "How important is it for your loved one to be alert?",
       "Are there specific prayers or rituals you would like to perform?"] }

/-- `CulturalBridge.get_communication_guidance`. -/
def get_communication_guidance (cultural_key communication_context : String) :
    Guidance :=
  match get_profile cultural_key with
  | none => get_generic_guidance communication_context
  | some profile =>
    let g0 : Guidance := {}
    let awarenessLines :=
      ["Decision-making style often: " ++
        decisionStyleValue profile.decision_style,
       "Disclosure preference may be: " ++
        disclosureValue profile.disclosure_preference,
       "Death beliefs context: " ++
        deathBeliefsValue profile.death_beliefs]
    let g1 := { g0 with cultural_awareness :=
      g0.cultural_awareness ++ awarenessLines }
    let g2 :=
      if profile.important_concepts.isEmpty then g1
      else
        let conceptsLine := "Key concepts: " ++
          String.intercalate ", " (profile.important_concepts.take 3)
        { g1 with cultural_awareness :=
          g1.cultural_awareness ++ [conceptsLine] }
    let g3 :=
      if communication_context = "prognosis" then
        add_prognosis_guidance g2 profile
      else if communication_context = "goals_of_care" then
        add_goals_guidance g2 profile
      else if communication_context = "imminent_death" then
        add_imminent_death_guidance g2 profile
      else g2
    { g3 with critical_reminder := universal_principle_head }

/-- C8: `get_profile` returns the stored profile exactly for the lowercased
registered keys and `None` otherwise, and `get_communication_guidance`
returns the generic guidance (produced by `_get_generic_guidance`) exactly
when `get_profile` returns `None`. -/
theorem C8_cultural_lookup (key ctx : String) :
    get_profile key =
      (if key.map Char.toLower = "hindu_indian" then some HINDU_INDIAN_PROFILE
       else if key.map Char.toLower = "south_asian_general" then
         some GENERAL_SOUTH_ASIAN_PROFILE
       else none) ∧
    (get_communication_guidance key ctx = get_generic_guidance ctx ↔
      get_profile key = none) := by
  constructor
  · rfl
  · unfold get_communication_guidance
    cases hp : get_profile key with
    | none => simp
    | some p =>
      refine iff_of_false ?_ (by simp)
      have hps : p = HINDU_INDIAN_PROFILE ∨ p = GENERAL_SOUTH_ASIAN_PROFILE := by
        unfold get_profile profilesLookup at hp
        split_ifs at hp
        · exact Or.inl (Option.some.inj hp).symm
        · exact Or.inr (Option.some.inj hp).symm
      have hgen : get_generic_guidance ctx = get_generic_guidance "" := rfl
      rw [hgen]
      dsimp only
      rcases hps with hps | hps <;> subst hps <;>
        [skip; skip] <;>
      · by_cases hc1 : ctx = "prognosis"
        · rw [if_pos hc1]
          exact of_decide_eq_true (by with_unfolding_all rfl)
        · rw [if_neg hc1]
          by_cases hc2 : ctx = "goals_of_care"
          · rw [if_pos hc2]
            exact of_decide_eq_true (by with_unfolding_all rfl)
          · rw [if_neg hc2]
            by_cases hc3 : ctx = "imminent_death"
            · rw [if_pos hc3]
              exact of_decide_eq_true (by with_unfolding_all rfl)
            · rw [if_neg hc3]
              exact of_decide_eq_true (by with_unfolding_all rfl)
